import Mathlib

/-!
# Verification of the `yek`-wrapper CLI

A shallow embedding of the data model and the pure computations of the
wrapper around the external `yek` collector (sources: `src/main.rs`,
`src/main2.rs`, `src/cli.rs`), together with theorems settling the
specification claims about it.

Rust strings are embedded as Lean `String`; `str::chars()` corresponds to
`String.data` (the list of unicode scalar values) and `str::len()` (the
UTF-8 byte length) corresponds to `String.utf8ByteSize`.  Library string
routines of the Rust standard library that the program uses
(`str::lines`, `str::ends_with`, `Path::parent`) are re-implemented here
over `String.data` so that every definition evaluates by kernel
reduction.
-/

namespace YekWrapper

/-- A single file record decoded from the collector JSON output
(struct `YekFile` in `src/main.rs`): a relative path plus raw content. -/
structure YekFile where
  filename : String
  content : String
  deriving DecidableEq, Repr

/-- The command-line arguments relevant to the reporting and warning
logic (struct `Args` in `src/cli.rs`; defaults 9, 6 and 300). -/
structure Args where
  top_file_count : Nat
  top_dir_count : Nat
  warn_large_files_by_line_count : Nat
  deriving DecidableEq, Repr

/-- `estimate_tokens` from `src/main.rs`:
`text.chars().count() / 4` — the number of unicode scalar values of the
text divided by four with floored natural division. -/
def estimate_tokens (text : String) : Nat :=
  text.data.length / 4

/-- Split a character list at every occurrence of `sep`, keeping empty
segments — the splitting underlying `str::lines` and `Path` handling.
`splitOnChar sep []` is `[[]]`, matching `"".split(sep)` yielding one
empty segment. -/
def splitOnChar (sep : Char) : List Char → List (List Char)
  | [] => [[]]
  | a :: rest =>
    match splitOnChar sep rest with
    | [] => if a = sep then [[], []] else [[a]]
    | s :: ss => if a = sep then [] :: s :: ss else (a :: s) :: ss

/-- `content.lines().count()` from the Rust standard library: the number
of newline-delimited segments, a trailing `\n` contributing no extra
empty segment (`""` has 0 lines, `"x\n"` has 1, `"x\ny"` has 2). -/
def lineCount (s : String) : Nat :=
  let parts := splitOnChar (Char.ofNat 10) s.data
  if parts.getLastD [] = [] then parts.length - 1 else parts.length

/-- `s.ends_with(c)` for a single character, over the scalar values. -/
def endsWithChar (c : Char) (s : String) : Bool :=
  match s.data.getLast? with
  | none => false
  | some a => a == c

/-- Interpose the path separator between path components. -/
def joinSlash : List (List Char) → List Char
  | [] => []
  | [x] => x
  | x :: y :: rest => x ++ Char.ofNat 47 :: joinSlash (y :: rest)

/-- `Path::new(&file.filename).parent()` composed with
`to_string_lossy().into_owned()` (Unix path semantics, as used in
`src/main.rs` lines 92-93): `none` for the empty path and for the bare
root, otherwise the path with its last component removed — `""` for a
root-level relative filename, `"/"` for a top-level absolute one.
Repeated and trailing separators are ignored, as `Path::components`
does. -/
def parentDir (s : String) : Option String :=
  if s.data = [] then none
  else
    match (splitOnChar (Char.ofNat 47) s.data).filter (fun c => c ≠ []) with
    | [] => none
    | comps =>
      let pre := comps.dropLast
      let root := if s.data.head? = some (Char.ofNat 47) then "/" else ""
      if pre = [] then some root
      else some (root ++ String.mk (joinSlash pre))

/-- The clipboard blob of `src/main.rs` (lines 79-87): each record
yields `>>>> <filename>\n<content>`, and a separator newline is pushed
after every block except the last. -/
def blobMain : List YekFile → String
  | [] => ""
  | [f] => ">>>> " ++ f.filename ++ "\n" ++ f.content
  | f :: g :: rest =>
    ">>>> " ++ f.filename ++ "\n" ++ f.content ++ "\n" ++ blobMain (g :: rest)

/-- The clipboard blob of `src/main2.rs` (lines 77-89): each record
yields the header `>>>> <filename>\n`, then the raw content, then one
newline appended only when the content does not already end with a
newline. -/
def blobMain2 (files : List YekFile) : String :=
  files.foldl
    (fun acc f =>
      acc ++ (">>>> " ++ f.filename ++ "\n") ++ f.content
        ++ (if endsWithChar (Char.ofNat 10) f.content then "" else "\n"))
    ""

/-- The content followed by its existing trailing newline, or with one
appended if absent (wording of spec section 4.5). -/
def padNewline (c : String) : String :=
  if endsWithChar (Char.ofNat 10) c then c else c ++ "\n"

/-- One file block as the specification words it: a `>>>> <filename>`
header line followed by the raw content ending in exactly its own or
one appended newline. -/
def specBlock (f : YekFile) : String :=
  ">>>> " ++ f.filename ++ "\n" ++ padNewline f.content

/-- The whole clipboard blob as the specification words it: the file
blocks concatenated in original collector order. -/
def specBlob (files : List YekFile) : String :=
  files.foldr (fun f acc => specBlock f ++ acc) ""

/-- One `HashMap` update of `src/main.rs` lines 94-96:
`dir_sizes.entry(dir_name).or_insert((0,0))`, then `entry.0 += chars`
and `entry.1 += lines`.  The map is embedded as an association list of
`(path, totalChars, totalLines)` entries keyed by directory path. -/
def bumpDir : List (String × Nat × Nat) → String → Nat → Nat →
    List (String × Nat × Nat)
  | [], k, c, l => [(k, c, l)]
  | (k2, c2, l2) :: rest, k, c, l =>
    if k2 = k then (k2, c2 + c, l2 + l) :: rest
    else (k2, c2, l2) :: bumpDir rest k c l

/-- The body of the aggregation loop of `src/main.rs` lines 91-98: a
record whose filename has a parent directory credits that directory
with its byte length and line count; a record whose filename has no
parent (`Path::parent` returned `None`) is skipped. -/
def dirStep (m : List (String × Nat × Nat)) (f : YekFile) :
    List (String × Nat × Nat) :=
  match parentDir f.filename with
  | none => m
  | some d => bumpDir m d f.content.utf8ByteSize (lineCount f.content)

/-- The directory aggregates (`dir_sizes` of `src/main.rs`) built over
the whole record sequence. -/
def dirSizes (files : List YekFile) : List (String × Nat × Nat) :=
  files.foldl dirStep []

/-- The sum of `totalChars` over all directory aggregates. -/
def sumDirChars (m : List (String × Nat × Nat)) : Nat :=
  (m.map (fun e => e.2.1)).sum

/-- The sum of content byte lengths over the records that have a parent
directory (the records the aggregation loop credits at all). -/
def creditedChars (files : List YekFile) : Nat :=
  ((files.filter (fun f => (parentDir f.filename).isSome)).map
    (fun f => f.content.utf8ByteSize)).sum

/-- The directory paths carrying an aggregate. -/
def dirKeys (m : List (String × Nat × Nat)) : List String :=
  m.map (fun e => e.1)

/-- The statistics loop of `src/main.rs` lines 60-67: one pass that
appends each content to `raw_combined_content` and adds each per-file
`lines().count()` into `total_lines`. -/
def statsLoop (files : List YekFile) : String × Nat :=
  files.foldl
    (fun acc f => (acc.1 ++ f.content, acc.2 + lineCount f.content))
    ("", 0)

/-- `raw_combined_content` after the loop. -/
def raw_combined_content (files : List YekFile) : String :=
  (statsLoop files).1

/-- `total_lines` after the loop. -/
def total_lines (files : List YekFile) : Nat :=
  (statsLoop files).2

/-- `file_count` of `src/main.rs` line 69: `files.len()`. -/
def file_count (files : List YekFile) : Nat :=
  files.length

/-- `token_count` of `src/main.rs` line 70: the token estimate of the
combined raw content. -/
def token_count (files : List YekFile) : Nat :=
  estimate_tokens (raw_combined_content files)

/-- The concatenation of all file contents in original order. -/
def concatContents (files : List YekFile) : String :=
  files.foldr (fun f acc => f.content ++ acc) ""

/-- Thousands grouping of `num_format`'s `Locale::en`
(`to_formatted_string`): a comma every three digits.  Here `chunk3`
works on the reversed digit list. -/
def chunk3 : List Char → List Char
  | a :: b :: c :: d :: rest => a :: b :: c :: Char.ofNat 44 :: chunk3 (d :: rest)
  | l => l

/-- `n.to_formatted_string(&Locale::en)`. -/
def groupThousands (n : Nat) : String :=
  String.mk ((chunk3 (Nat.repr n).data.reverse).reverse)

/-- One insertion step of a stable descending sort by a natural key:
the new element `x` goes in front of the first element whose key is
not larger, so earlier elements win ties. -/
def insertByKeyDesc {α : Type} (key : α → Nat) (x : α) : List α → List α
  | [] => [x]
  | y :: rest =>
    if key y ≤ key x then x :: y :: rest
    else y :: insertByKeyDesc key x rest

/-- A stable descending sort by a natural key, embedding Rust's stable
`Vec::sort_by(|a, b| key(b).cmp(&key(a)))` used in `src/main.rs` lines
101 and 124. -/
def sortByKeyDesc {α : Type} (key : α → Nat) : List α → List α
  | [] => []
  | x :: rest => insertByKeyDesc key x (sortByKeyDesc key rest)

/-- The listing selection of `src/main.rs` lines 122-130: sort the
records by descending content byte length, then keep the first
`top_file_count`. -/
def largestFiles (top_file_count : Nat) (files : List YekFile) :
    List YekFile :=
  (sortByKeyDesc (fun f => f.content.utf8ByteSize) files).take top_file_count

/-- One rendered line of the largest-files report: the printed text
plus whether it is emitted through `bright_yellow` (the warning
style). -/
structure FileEntry where
  info : String
  warn : Bool
  deriving DecidableEq, Repr

/-- The per-file rendering of `src/main.rs` lines 130-149: empty
content renders as `(empty)` with no warning style; otherwise the
figures line is built first and the warning style applies exactly when
`line_count >= warn_large_files_by_line_count`. -/
def renderFile (warnThreshold : Nat) (f : YekFile) : FileEntry :=
  if f.content = "" then ⟨"- " ++ f.filename ++ " (empty)", false⟩
  else
    ⟨"- " ++ f.filename ++ " (~"
       ++ groupThousands (estimate_tokens f.content) ++ " tokens, "
       ++ groupThousands (lineCount f.content) ++ " lines, "
       ++ groupThousands f.content.utf8ByteSize ++ " chars)",
     decide (warnThreshold ≤ lineCount f.content)⟩

/-- The largest-files report: the selected files rendered in order. -/
def fileReport (top_file_count warnThreshold : Nat)
    (files : List YekFile) : List FileEntry :=
  (largestFiles top_file_count files).map (renderFile warnThreshold)

/-- The ANSI rendering `colored::bright_yellow` wraps a warning line
in. -/
def styleWarn (s : String) : String :=
  "\x1b[93m" ++ s ++ "\x1b[0m"

/-- The largest-files report as the printed console lines. -/
def fileReportLines (top_file_count warnThreshold : Nat)
    (files : List YekFile) : List String :=
  (fileReport top_file_count warnThreshold files).map
    (fun e => if e.warn then styleWarn e.info else e.info)

/-- One rendered line of the largest-directories report
(`src/main.rs` lines 107-120); the token figure is the estimate over a
buffer of `size` NUL bytes, i.e. `size / 4`. -/
def dirLine (e : String × Nat × Nat) : String :=
  if e.2.1 = 0 then
    "- " ++ (if e.1 = "" then "." else e.1) ++ " (empty)"
  else
    "- " ++ (if e.1 = "" then "." else e.1) ++ " (~"
      ++ groupThousands
          (estimate_tokens (String.mk (List.replicate e.2.1 (Char.ofNat 0))))
      ++ " tokens, " ++ groupThousands e.2.2 ++ " lines, "
      ++ groupThousands e.2.1 ++ " chars)"

/-- The largest-directories report: aggregates sorted by descending
`totalChars`, the first `top_dir_count` rendered. -/
def dirReport (top_dir_count : Nat) (files : List YekFile) :
    List String :=
  ((sortByKeyDesc (fun e => e.2.1) (dirSizes files)).take
    top_dir_count).map dirLine

/-- A record of 100 bytes of content for the C8 size example. -/
def fBig : YekFile :=
  ⟨"big.txt", String.mk (List.replicate 100 (Char.ofNat 97))⟩

/-- The first record of 50 bytes of content for the C8 size example. -/
def fMid1 : YekFile :=
  ⟨"mid1.txt", String.mk (List.replicate 50 (Char.ofNat 98))⟩

/-- The second record of 50 bytes of content for the C8 size example. -/
def fMid2 : YekFile :=
  ⟨"mid2.txt", String.mk (List.replicate 50 (Char.ofNat 99))⟩

/-- A record of 10 bytes of content for the C8 size example. -/
def fSmall : YekFile :=
  ⟨"small.txt", String.mk (List.replicate 10 (Char.ofNat 100))⟩

/-- The terminal error kinds of a run (the `anyhow` failures of
`src/main.rs`): collector non-zero exit carrying the rendered status
and the captured stderr, JSON decode failure, and clipboard
initialization or write failure. -/
inductive RunError where
  | collectorFailed (status : String) (stderr : String)
  | decodeError
  | clipboardUnavailable (msg : String)
  deriving DecidableEq, Repr

/-- The user-visible message of each error (`anyhow::bail!` and
`.context(...)` texts of `src/main.rs`). -/
def errMessage : RunError → String
  | .collectorFailed st se =>
    "`yek --json` failed with status " ++ st ++ ":\n" ++ se
  | .decodeError =>
    "Failed to parse JSON from `yek` output. Is the format correct?"
  | .clipboardUnavailable m => m

/-- The captured result of the collector invocation: process exit code
(0 means success), the decoded stdout (`none` models JSON that does
not parse as a record list), and the captured stderr text. -/
structure CollectorOutput where
  exitCode : Nat
  stdout : Option (List YekFile)
  stderr : String

/-- `Display` of a normal Unix `ExitStatus`, as interpolated by the
`bail!` format string. -/
def statusDisplay (code : Nat) : String :=
  "exit status: " ++ Nat.repr code

/-- The observable outcome of one run: console lines in print order,
the clipboard slot after the run (`none` when nothing was written),
and the terminal error (`none` means exit code 0). -/
structure RunResult where
  printed : List String
  clipboard : Option String
  err : Option RunError
  deriving Repr

/-- The notice of `src/main.rs` line 56. -/
def nothingToDoLine : String :=
  "✅ No files found in yek output. Nothing to do."

/-- The summary line of `src/main.rs` lines 72-77. -/
def summaryLine (files : List YekFile) : String :=
  "~" ++ groupThousands (token_count files) ++ " tokens / "
    ++ groupThousands (file_count files) ++ " files / "
    ++ groupThousands (total_lines files) ++ " lines"

/-- The success notice of `src/main.rs` lines 152-155, printed with its
leading blank line. -/
def copiedNotice : String := "\n✅ Copied to clipboard"

/-- The run of `src/main.rs` from the captured collector output
onwards, step for step in source order: status check, decode, empty
check, statistics and reporting, then — after the success notice is
already printed — clipboard initialization and write.  The two
booleans say whether `Clipboard::new()` and `set_text` succeed. -/
def runMain (args : Args) (clipInitOk clipWriteOk : Bool)
    (out : CollectorOutput) : RunResult :=
  if out.exitCode ≠ 0 then
    ⟨[], none,
     some (.collectorFailed (statusDisplay out.exitCode) out.stderr)⟩
  else
    match out.stdout with
    | none => ⟨[], none, some .decodeError⟩
    | some files =>
      if files = [] then ⟨[nothingToDoLine], none, none⟩
      else
        let printed :=
          [summaryLine files, "\nLargest directories"]
            ++ dirReport args.top_dir_count files
            ++ ["\nLargest files"]
            ++ fileReportLines args.top_file_count
                 args.warn_large_files_by_line_count files
            ++ [copiedNotice]
        if clipInitOk = false then
          ⟨printed, none,
           some (.clipboardUnavailable "Failed to initialize clipboard.")⟩
        else if clipWriteOk = false then
          ⟨printed, none,
           some (.clipboardUnavailable "Failed to copy content to clipboard.")⟩
        else
          ⟨printed, some (blobMain files), none⟩

/-- Sanity checks of the embedded Rust library routines on concrete
inputs: `lines().count()`, `ends_with`, `Path::parent` and the
`Locale::en` thousands grouping behave as their Rust counterparts. -/
theorem model_sanity :
    lineCount "" = 0 ∧ lineCount "x" = 1 ∧ lineCount "x\n" = 1
    ∧ lineCount "x\n\ny" = 3
    ∧ parentDir "" = none ∧ parentDir "a.txt" = some ""
    ∧ parentDir "dir/a.txt" = some "dir"
    ∧ parentDir "a/b/c.rs" = some "a/b"
    ∧ parentDir "/" = none ∧ parentDir "/a" = some "/"
    ∧ endsWithChar (Char.ofNat 10) "x\n" = true
    ∧ endsWithChar (Char.ofNat 10) "x" = false
    ∧ endsWithChar (Char.ofNat 10) "" = false
    ∧ groupThousands 1234567 = "1,234,567"
    ∧ groupThousands 123 = "123" ∧ groupThousands 0 = "0" := by
  decide

theorem content_pad (c : String) :
    c ++ (if endsWithChar (Char.ofNat 10) c then "" else "\n") = padNewline c := by
  by_cases h : endsWithChar (Char.ofNat 10) c = true <;>
    simp [padNewline, h, String.append_empty]

theorem blobMain2_foldl (l : List YekFile) (s : String) :
    l.foldl
      (fun acc f =>
        acc ++ (">>>> " ++ f.filename ++ "\n") ++ f.content
          ++ (if endsWithChar (Char.ofNat 10) f.content then "" else "\n"))
      s = s ++ specBlob l := by
  induction l generalizing s with
  | nil => simp [specBlob, String.append_empty]
  | cons f rest ih =>
    simp only [List.foldl_cons, specBlob, List.foldr_cons] at *
    rw [ih]
    simp only [specBlock, ← content_pad]
    simp [String.append_assoc]

theorem blobMain2_eq_specBlob (files : List YekFile) :
    blobMain2 files = specBlob files := by
  unfold blobMain2
  rw [blobMain2_foldl, String.empty_append]

/-- C1 (amended): the `main2.rs` blob builder realises the per-file
rule — header line `>>>> <filename>`, then the raw content, then its
existing trailing newline or one appended newline — for every record
sequence, and on the two records `("a.txt","x")`, `("b.txt","y\n")`
both the `main.rs` and the `main2.rs` builders produce exactly
`>>>> a.txt\nx\n>>>> b.txt\ny\n`, with no duplicated trailing newline.
(The `main.rs` builder does not follow the per-file rule in general,
see its counterexample.) -/
theorem C1_clipboard_blob :
    (∀ files : List YekFile, blobMain2 files = specBlob files)
    ∧ blobMain [⟨"a.txt", "x"⟩, ⟨"b.txt", "y\n"⟩]
        = ">>>> a.txt\nx\n>>>> b.txt\ny\n"
    ∧ blobMain2 [⟨"a.txt", "x"⟩, ⟨"b.txt", "y\n"⟩]
        = ">>>> a.txt\nx\n>>>> b.txt\ny\n" :=
  ⟨blobMain2_eq_specBlob, by decide, by decide⟩

/-- C1 counterexample: the `main.rs` builder violates the claimed
per-file rule — for the single record `("a.txt","x")` it appends no
newline after the content, while the rule demands one. -/
theorem C1_clipboard_blob_counterexample :
    blobMain [⟨"a.txt", "x"⟩] ≠ specBlob [⟨"a.txt", "x"⟩] := by
  decide

/-- C10 (amended): the two blob builders agree exactly on those record
sequences in which no non-final content ends with a newline and the
final content does end with one; they are not equal in general (see
the counterexample). -/
theorem C10_blob_equivalence (files : List YekFile)
    (h1 : files.dropLast.all
        (fun f => !endsWithChar (Char.ofNat 10) f.content) = true)
    (h2 : files.getLast?.all
        (fun f => endsWithChar (Char.ofNat 10) f.content) = true) :
    blobMain files = blobMain2 files := by
  rw [blobMain2_eq_specBlob]
  induction files with
  | nil => rfl
  | cons f rest ih =>
    cases rest with
    | nil =>
      have he : endsWithChar (Char.ofNat 10) f.content = true := by
        simpa using h2
      simp [blobMain, specBlob, specBlock, padNewline, he,
        String.append_empty]
    | cons g rest2 =>
      simp only [List.dropLast, List.all_cons, Bool.and_eq_true,
        Bool.not_eq_true'] at h1
      simp only [List.getLast?_cons_cons] at h2
      have hrec := ih h1.2 h2
      simp only [blobMain, specBlob, List.foldr_cons] at hrec ⊢
      rw [hrec]
      simp [specBlock, padNewline, h1.1, String.append_assoc]

/-- C10 witness: on `("a","x")`, `("b","y\n")` the hypotheses hold and
the two builders produce the same blob. -/
theorem C10_blob_equivalence_witness :
    blobMain [⟨"a", "x"⟩, ⟨"b", "y\n"⟩]
      = blobMain2 [⟨"a", "x"⟩, ⟨"b", "y\n"⟩] :=
  C10_blob_equivalence [⟨"a", "x"⟩, ⟨"b", "y\n"⟩] (by decide) (by decide)

/-- C10 counterexample: on `("a","x\n")`, `("b","y")` the `main.rs`
builder yields `>>>> a\nx\n\n>>>> b\ny` while the `main2.rs` builder
yields `>>>> a\nx\n>>>> b\ny\n`. -/
theorem C10_blob_equivalence_counterexample :
    blobMain [⟨"a", "x\n"⟩, ⟨"b", "y"⟩]
      ≠ blobMain2 [⟨"a", "x\n"⟩, ⟨"b", "y"⟩] := by
  decide

theorem sumDirChars_bumpDir (m : List (String × Nat × Nat))
    (k : String) (c l : Nat) :
    sumDirChars (bumpDir m k c l) = sumDirChars m + c := by
  induction m with
  | nil => simp [bumpDir, sumDirChars]
  | cons e rest ih =>
    obtain ⟨k2, c2, l2⟩ := e
    by_cases h : k2 = k <;>
      simp [bumpDir, h, sumDirChars] at ih ⊢ <;> omega

theorem mem_dirKeys_bumpDir_self (m : List (String × Nat × Nat))
    (k : String) (c l : Nat) : k ∈ dirKeys (bumpDir m k c l) := by
  induction m with
  | nil => simp [bumpDir, dirKeys]
  | cons e rest ih =>
    obtain ⟨k2, c2, l2⟩ := e
    by_cases h : k2 = k <;> simp [bumpDir, h, dirKeys] at ih ⊢
    exact Or.inr ih

theorem mem_dirKeys_bumpDir_mono (m : List (String × Nat × Nat))
    (k a : String) (c l : Nat) (h : a ∈ dirKeys m) :
    a ∈ dirKeys (bumpDir m k c l) := by
  induction m with
  | nil => simp [dirKeys] at h
  | cons e rest ih =>
    obtain ⟨k2, c2, l2⟩ := e
    rw [dirKeys, List.map_cons, List.mem_cons] at h
    by_cases hk : k2 = k
    · simp only [bumpDir, if_pos hk, dirKeys, List.map_cons, List.mem_cons]
      exact h
    · simp only [bumpDir, if_neg hk, dirKeys, List.map_cons, List.mem_cons]
      rcases h with h | h
      · exact Or.inl h
      · exact Or.inr (ih h)

theorem mem_dirKeys_dirStep_mono (m : List (String × Nat × Nat))
    (f : YekFile) (a : String) (h : a ∈ dirKeys m) :
    a ∈ dirKeys (dirStep m f) := by
  unfold dirStep
  cases hp : parentDir f.filename with
  | none => exact h
  | some d => exact mem_dirKeys_bumpDir_mono _ _ _ _ _ h

theorem sumDirChars_foldl (files : List YekFile) :
    ∀ m : List (String × Nat × Nat),
      sumDirChars (files.foldl dirStep m) = sumDirChars m + creditedChars files := by
  induction files with
  | nil => intro m; simp [creditedChars]
  | cons f rest ih =>
    intro m
    simp only [List.foldl_cons]
    rw [ih]
    unfold dirStep
    cases hp : parentDir f.filename with
    | none =>
      simp [creditedChars, List.filter_cons, Option.isSome, hp]
    | some d =>
      rw [sumDirChars_bumpDir]
      simp [creditedChars, List.filter_cons, Option.isSome, hp]
      omega

theorem mem_dirKeys_foldl_mono (files : List YekFile) :
    ∀ (m : List (String × Nat × Nat)) (a : String), a ∈ dirKeys m →
      a ∈ dirKeys (files.foldl dirStep m) := by
  induction files with
  | nil => intro m a h; exact h
  | cons f rest ih =>
    intro m a h
    exact ih _ _ (mem_dirKeys_dirStep_mono _ _ _ h)

theorem mem_dirKeys_foldl (files : List YekFile) :
    ∀ m : List (String × Nat × Nat), ∀ f ∈ files, ∀ d : String,
      parentDir f.filename = some d →
        d ∈ dirKeys (files.foldl dirStep m) := by
  induction files with
  | nil => intro m f hf; simp at hf
  | cons g rest ih =>
    intro m f hf d hd
    simp only [List.foldl_cons]
    rcases List.mem_cons.mp hf with h | h
    · subst h
      refine mem_dirKeys_foldl_mono rest _ d ?_
      unfold dirStep
      rw [hd]
      exact mem_dirKeys_bumpDir_self _ _ _ _
    · exact ih _ f h d hd

/-- C2 (amended): directory bucketing is a partition of the records
that have a parent directory: the sum of `totalChars` over all
directory aggregates equals the sum of content byte lengths over
exactly those records whose filename has a parent directory
(`Path::parent` not `None`), and each such record is credited once to
its immediate parent, whose aggregate is present.  Records whose
filename is empty or a bare root are skipped and credited nowhere. -/
theorem C2_directory_partition (files : List YekFile) :
    sumDirChars (dirSizes files) = creditedChars files
    ∧ ∀ f ∈ files, ∀ d : String, parentDir f.filename = some d →
        d ∈ dirKeys (dirSizes files) := by
  constructor
  · have h := sumDirChars_foldl files []
    simpa [dirSizes, sumDirChars] using h
  · intro f hf d hd
    exact mem_dirKeys_foldl files [] f hf d hd

/-- C2 witness: for two records under `dir` and at the root, the sum
identity holds and `dir` carries an aggregate. -/
theorem C2_directory_partition_witness :
    sumDirChars (dirSizes [⟨"dir/a.txt", "abc"⟩, ⟨"b.txt", "xy"⟩])
      = creditedChars [⟨"dir/a.txt", "abc"⟩, ⟨"b.txt", "xy"⟩]
    ∧ "dir" ∈ dirKeys (dirSizes [⟨"dir/a.txt", "abc"⟩, ⟨"b.txt", "xy"⟩]) :=
  ⟨(C2_directory_partition [⟨"dir/a.txt", "abc"⟩, ⟨"b.txt", "xy"⟩]).1,
   (C2_directory_partition [⟨"dir/a.txt", "abc"⟩, ⟨"b.txt", "xy"⟩]).2
     ⟨"dir/a.txt", "abc"⟩ (by decide) "dir" (by decide)⟩

/-- C2 counterexample: a record whose filename is the empty string has
no parent directory (`Path::new("").parent()` is `None`), so its four
content bytes are credited to no aggregate and the sum over all
aggregates falls short of the sum over all records. -/
theorem C2_directory_partition_counterexample :
    sumDirChars (dirSizes [⟨"", "abcd"⟩])
      ≠ (([⟨"", "abcd"⟩] : List YekFile).map
          (fun f => f.content.utf8ByteSize)).sum := by
  decide

/-- C3: `estimate_tokens` returns the number of unicode scalar values
of the text divided by four with floored natural division; it is a
pure function of its argument (hence deterministic) and the empty
string yields zero. -/
theorem C3_token_estimate (t : String) :
    estimate_tokens t = t.length / 4 ∧ estimate_tokens "" = 0 :=
  ⟨rfl, rfl⟩

theorem statsLoop_general (files : List YekFile) :
    ∀ (s : String) (n : Nat),
      files.foldl
        (fun acc f => (acc.1 ++ f.content, acc.2 + lineCount f.content))
        (s, n)
      = (s ++ concatContents files,
         n + (files.map (fun f => lineCount f.content)).sum) := by
  induction files with
  | nil => intro s n; simp [concatContents, String.append_empty]
  | cons f rest ih =>
    intro s n
    simp only [List.foldl_cons, ih, concatContents, List.foldr_cons,
      List.map_cons, List.sum_cons]
    exact Prod.ext (by rw [String.append_assoc]) (by omega)

/-- C4: for every non-empty record sequence the run totals satisfy:
file count is the number of records; total lines is the sum of the
per-file newline-delimited segment counts (a trailing newline adding
no extra segment); and the total token estimate is the token estimate
of the concatenation of all contents in original order — which is a
genuinely different quantity from the sum of per-file estimates, as
the final conjunct shows on `"ab"`, `"cd"`. -/
theorem C4_run_totals (files : List YekFile) (_hne : files ≠ []) :
    file_count files = files.length
    ∧ total_lines files = (files.map (fun f => lineCount f.content)).sum
    ∧ token_count files = estimate_tokens (concatContents files)
    ∧ estimate_tokens ("ab" ++ "cd")
        ≠ estimate_tokens "ab" + estimate_tokens "cd" := by
  refine ⟨rfl, ?_, ?_, by decide⟩
  · unfold total_lines statsLoop
    rw [statsLoop_general]
    exact Nat.zero_add _
  · unfold token_count raw_combined_content statsLoop
    rw [statsLoop_general]
    show estimate_tokens ("" ++ concatContents files) = _
    rw [String.empty_append]

/-- C4 witness: the totals on the two records `("a","ab\n")`,
`("b","cd")`. -/
theorem C4_run_totals_witness :
    ([(⟨"a", "ab\n"⟩ : YekFile), ⟨"b", "cd"⟩] ≠ [])
    ∧ total_lines [(⟨"a", "ab\n"⟩ : YekFile), ⟨"b", "cd"⟩]
        = ([(⟨"a", "ab\n"⟩ : YekFile), ⟨"b", "cd"⟩].map
            (fun f => lineCount f.content)).sum
    ∧ token_count [(⟨"a", "ab\n"⟩ : YekFile), ⟨"b", "cd"⟩]
        = estimate_tokens
            (concatContents [(⟨"a", "ab\n"⟩ : YekFile), ⟨"b", "cd"⟩]) :=
  ⟨by decide,
   (C4_run_totals [⟨"a", "ab\n"⟩, ⟨"b", "cd"⟩] (by decide)).2.1,
   (C4_run_totals [⟨"a", "ab\n"⟩, ⟨"b", "cd"⟩] (by decide)).2.2.1⟩

theorem mem_insertByKeyDesc {α : Type} (key : α → Nat) (x : α)
    (l : List α) (a : α) :
    a ∈ insertByKeyDesc key x l ↔ a = x ∨ a ∈ l := by
  induction l with
  | nil => simp [insertByKeyDesc]
  | cons y rest ih =>
    by_cases h : key y ≤ key x
    · simp [insertByKeyDesc, h]
    · simp [insertByKeyDesc, h, ih]
      tauto

theorem pairwise_insertByKeyDesc {α : Type} (key : α → Nat) (x : α)
    (l : List α) (h : l.Pairwise (fun a b => key b ≤ key a)) :
    (insertByKeyDesc key x l).Pairwise (fun a b => key b ≤ key a) := by
  induction l with
  | nil => simp [insertByKeyDesc]
  | cons y rest ih =>
    rw [List.pairwise_cons] at h
    simp only [insertByKeyDesc]
    by_cases hc : key y ≤ key x
    · rw [if_pos hc]
      refine List.Pairwise.cons ?_ (List.Pairwise.cons h.1 h.2)
      intro b hb
      rcases List.mem_cons.mp hb with rfl | hb
      · exact hc
      · exact le_trans (h.1 b hb) hc
    · rw [if_neg hc]
      refine List.Pairwise.cons ?_ (ih h.2)
      intro b hb
      rcases (mem_insertByKeyDesc key x rest b).mp hb with rfl | hb
      · exact le_of_not_le hc
      · exact h.1 b hb

theorem sortByKeyDesc_pairwise {α : Type} (key : α → Nat) (l : List α) :
    (sortByKeyDesc key l).Pairwise (fun a b => key b ≤ key a) := by
  induction l with
  | nil => simp [sortByKeyDesc]
  | cons x rest ih => exact pairwise_insertByKeyDesc key x _ ih

theorem mem_sortByKeyDesc {α : Type} (key : α → Nat) (l : List α)
    (a : α) : a ∈ sortByKeyDesc key l ↔ a ∈ l := by
  induction l with
  | nil => simp [sortByKeyDesc]
  | cons x rest ih => simp [sortByKeyDesc, mem_insertByKeyDesc, ih]

/-- C7 (amended): for every warning threshold of at least one (the
default is 300), a listed file is rendered in the warning style
exactly when its line count is at least the threshold — so a file with
exactly threshold lines is flagged and one with one line fewer is not
— and the threshold never changes the rendered figures text.  (At
threshold zero an empty-content listed file escapes the style, see the
counterexample.) -/
theorem C7_warning_style (n t : Nat) (files : List YekFile)
    (ht : 1 ≤ t) :
    (∀ f ∈ largestFiles n files,
        ((renderFile t f).warn = true ↔ t ≤ lineCount f.content))
    ∧ ∀ (f : YekFile) (t2 : Nat),
        (renderFile t f).info = (renderFile t2 f).info := by
  constructor
  · intro f _
    unfold renderFile
    by_cases h : f.content = ""
    · rw [if_pos h]
      have h0 : lineCount f.content = 0 := by rw [h]; decide
      simp [h0]
      omega
    · rw [if_neg h]
      simp [decide_eq_true_iff]
  · intro f t2
    unfold renderFile
    by_cases h : f.content = "" <;> simp [h]

/-- C7 witness: with threshold 2, a two-line listed file is flagged. -/
theorem C7_warning_style_witness :
    1 ≤ 2
    ∧ ((renderFile 2 ⟨"a", "x\ny"⟩).warn = true ↔ 2 ≤ lineCount "x\ny") :=
  ⟨by decide,
   (C7_warning_style 1 2 [⟨"a", "x\ny"⟩] (by decide)).1
     ⟨"a", "x\ny"⟩ (by decide)⟩

/-- C7 counterexample: with threshold 0, the listed record `("e","")`
has line count 0, which is greater than or equal to the threshold, yet
it is rendered as `(empty)` without the warning style. -/
theorem C7_warning_style_counterexample :
    (⟨"e", ""⟩ : YekFile) ∈ largestFiles 1 [⟨"e", ""⟩]
    ∧ 0 ≤ lineCount (YekFile.content ⟨"e", ""⟩)
    ∧ (renderFile 0 ⟨"e", ""⟩).warn = false := by
  decide

/-- C8: the largest-files listing keeps at most `top_file_count`
records, is sorted by descending content byte length, lists only input
records, and on the size example [100, 50, 50, 10] with
`top_file_count = 2` it is exactly the 100-byte file followed by the
first 50-byte file — so the 100-byte file plus one 50-byte file. -/
theorem C8_top_files (n : Nat) (files : List YekFile) :
    (largestFiles n files).length ≤ n
    ∧ (largestFiles n files).Pairwise
        (fun a b => b.content.utf8ByteSize ≤ a.content.utf8ByteSize)
    ∧ (∀ f ∈ largestFiles n files, f ∈ files)
    ∧ largestFiles 2 [fBig, fMid1, fMid2, fSmall] = [fBig, fMid1]
    ∧ fBig.content.utf8ByteSize = 100
    ∧ fMid1.content.utf8ByteSize = 50 := by
  refine ⟨List.length_take_le _ _, ?_, ?_, by decide, by decide, by decide⟩
  · exact List.Pairwise.sublist (List.take_sublist _ _)
      (sortByKeyDesc_pairwise _ _)
  · intro f hf
    exact (mem_sortByKeyDesc _ _ _).mp
      (List.Sublist.mem hf (List.take_sublist _ _))

/-- C8 witness: one 50-byte file appears in the two-element listing,
and it is an input record. -/
theorem C8_top_files_witness :
    fMid1 ∈ largestFiles 2 [fBig, fMid1, fMid2, fSmall]
    ∧ fMid1 ∈ [fBig, fMid1, fMid2, fSmall] :=
  ⟨by decide,
   (C8_top_files 2 [fBig, fMid1, fMid2, fSmall]).2.2.1 fMid1 (by decide)⟩

/-- C5: when the decoded record sequence is empty, the run prints
exactly the nothing-to-do notice, terminates successfully (no error,
hence exit code 0), and neither builds a blob nor writes the
clipboard. -/
theorem C5_empty_input (args : Args) (i w : Bool)
    (out : CollectorOutput) (hc : out.exitCode = 0)
    (hs : out.stdout = some []) :
    runMain args i w out = ⟨[nothingToDoLine], none, none⟩ := by
  simp [runMain, hc, hs]

/-- C5 witness: the empty decode on a successful collector exit. -/
theorem C5_empty_input_witness :
    runMain ⟨9, 6, 300⟩ true true ⟨0, some [], ""⟩
      = ⟨[nothingToDoLine], none, none⟩ :=
  C5_empty_input ⟨9, 6, 300⟩ true true ⟨0, some [], ""⟩ rfl rfl

theorem statusLit (r : String) :
    ("`yek --json` failed with status " : String)
        ++ ("exit status: " ++ r)
      = "`yek --json` failed with status exit status: " ++ r := by
  rw [← String.append_assoc]
  have h : ("`yek --json` failed with status " ++ "exit status: " : String)
      = "`yek --json` failed with status exit status: " := by decide
  rw [h]

/-- C6: a non-zero collector exit fails the run with `CollectorFailed`
carrying the rendered exit status and the stderr text; nothing is
printed, no clipboard write happens, and the error message contains
the stderr verbatim and the exit status. -/
theorem C6_collector_failed (args : Args) (i w : Bool)
    (out : CollectorOutput) (h : out.exitCode ≠ 0) :
    runMain args i w out
      = ⟨[], none,
         some (.collectorFailed (statusDisplay out.exitCode) out.stderr)⟩
    ∧ errMessage
        (.collectorFailed (statusDisplay out.exitCode) out.stderr)
      = "`yek --json` failed with status exit status: "
          ++ Nat.repr out.exitCode ++ ":\n" ++ out.stderr
    ∧ (∃ a : String,
        errMessage
          (.collectorFailed (statusDisplay out.exitCode) out.stderr)
        = a ++ out.stderr)
    ∧ (∃ a b : String,
        errMessage
          (.collectorFailed (statusDisplay out.exitCode) out.stderr)
        = a ++ Nat.repr out.exitCode ++ b) := by
  refine ⟨by simp [runMain, h], ?_, ?_, ?_⟩
  · simp only [errMessage, statusDisplay, String.append_assoc]
    exact statusLit _
  · exact ⟨"`yek --json` failed with status " ++ statusDisplay out.exitCode
      ++ ":\n", rfl⟩
  · refine ⟨"`yek --json` failed with status " ++ "exit status: ",
      ":\n" ++ out.stderr, ?_⟩
    simp only [errMessage, statusDisplay, String.append_assoc]

/-- C6 witness: exit code 1 with stderr `boom`. -/
theorem C6_collector_failed_witness :
    runMain ⟨9, 6, 300⟩ true true ⟨1, none, "boom"⟩
      = ⟨[], none,
         some (.collectorFailed (statusDisplay 1) "boom")⟩
    ∧ errMessage (.collectorFailed (statusDisplay 1) "boom")
      = "`yek --json` failed with status exit status: "
          ++ Nat.repr 1 ++ ":\n" ++ "boom"
    ∧ (∃ a : String,
        errMessage (.collectorFailed (statusDisplay 1) "boom")
        = a ++ "boom")
    ∧ (∃ a b : String,
        errMessage (.collectorFailed (statusDisplay 1) "boom")
        = a ++ Nat.repr 1 ++ b) :=
  C6_collector_failed ⟨9, 6, 300⟩ true true ⟨1, none, "boom"⟩ (by decide)

/-- C9: in every run reaching the clipboard step, the success notice
is one of the printed lines whatever the clipboard flags are — it is
emitted before clipboard initialization is attempted — so when the run
then fails with `ClipboardUnavailable` (on initialization or on
write), the notice has already been printed and nothing was written. -/
theorem C9_notice_before_clipboard (args : Args) (i w : Bool)
    (out : CollectorOutput) (files : List YekFile)
    (hc : out.exitCode = 0) (hs : out.stdout = some files)
    (hne : files ≠ []) :
    copiedNotice ∈ (runMain args i w out).printed
    ∧ (i = false →
        (runMain args i w out).err
          = some (.clipboardUnavailable "Failed to initialize clipboard.")
        ∧ (runMain args i w out).clipboard = none)
    ∧ (i = true → w = false →
        (runMain args i w out).err
          = some (.clipboardUnavailable "Failed to copy content to clipboard.")
        ∧ (runMain args i w out).clipboard = none) := by
  cases i <;> cases w <;>
    simp [runMain, hc, hs, hne]

/-- C9 witness: with a failing clipboard initialization on one record,
the notice is printed and the run ends in `ClipboardUnavailable` with
no write. -/
theorem C9_notice_before_clipboard_witness :
    copiedNotice
      ∈ (runMain ⟨9, 6, 300⟩ false true
          ⟨0, some [⟨"a.txt", "x"⟩], ""⟩).printed
    ∧ (false = false →
        (runMain ⟨9, 6, 300⟩ false true
            ⟨0, some [⟨"a.txt", "x"⟩], ""⟩).err
          = some (.clipboardUnavailable "Failed to initialize clipboard.")
        ∧ (runMain ⟨9, 6, 300⟩ false true
            ⟨0, some [⟨"a.txt", "x"⟩], ""⟩).clipboard = none) :=
  ⟨(C9_notice_before_clipboard ⟨9, 6, 300⟩ false true
      ⟨0, some [⟨"a.txt", "x"⟩], ""⟩ [⟨"a.txt", "x"⟩]
      rfl rfl (by decide)).1,
   (C9_notice_before_clipboard ⟨9, 6, 300⟩ false true
      ⟨0, some [⟨"a.txt", "x"⟩], ""⟩ [⟨"a.txt", "x"⟩]
      rfl rfl (by decide)).2.1⟩

end YekWrapper
